import Mathlib

/-!
Shallow embedding of the ESP32 static memory layout header
(soc/espressif/esp32/memory.h).

The header is a set of preprocessor constants computed from the device tree
(bank base addresses and sizes) and Kconfig options (secondary-core toggle,
MCUboot presence and loader size, heap and Bluetooth reservations, flash
parameters).  Each macro becomes a Lean function of a `Config` record that
collects those inputs; all arithmetic is carried out over the integers,
matching the preprocessor and linker-script arithmetic, in which no value
comes near an overflow boundary and a subtraction can go negative.
-/

/-- Build-time inputs of the layout header: device-tree bank geometry and
Kconfig options.  A `Bool` field models a `#if defined(...)` toggle; an
`Option` field models a macro that may be left undefined. -/
structure Config where
  sram0_start : ℤ
  sram0_size : ℤ
  sram1_start : ℤ
  sram1_size : ℤ
  sram2_start : ℤ
  sram2_size : ℤ
  /-- CONFIG_SOC_ENABLE_APPCPU or CONFIG_SOC_ESP32_APPCPU -/
  appcpuEnabled : Bool
  /-- CONFIG_MCUBOOT or CONFIG_BOOTLOADER_MCUBOOT -/
  mcuboot : Bool
  /-- CONFIG_ESP32_MCUBOOT_IRAM -/
  mcubootIram : ℤ
  /-- CONFIG_ESP32_SRAM1_HEAP_SIZE -/
  sram1HeapSize : ℤ
  /-- CONFIG_ESP32_BT_RESERVE_DRAM -/
  btReserveDram : ℤ
  /-- CONFIG_ESP_APPCPU_IRAM_SIZE -/
  appcpuIramSizeCfg : ℤ
  /-- CONFIG_ESP_APPCPU_DRAM_SIZE -/
  appcpuDramSizeCfg : ℤ
  /-- CONFIG_FLASH_SIZE when defined -/
  flashSizeCfg : Option ℤ
  flashCodeStart : ℤ
  flashCodeSize : ℤ
  /-- CONFIG_MMU_PAGE_SIZE -/
  mmuPageSize : ℤ
  deriving DecidableEq

/-- SRAM0: External Memory Cache, 32kB per active CPU. -/
def CACHE_START (c : Config) : ℤ := c.sram0_start

def CACHE_SIZE_SINGLE_CPU : ℤ := 0x8000

def CACHE_SIZE_DUAL_CPU : ℤ := 0x10000

/-- CACHE_SIZE: single-CPU size when the App CPU is enabled, dual-CPU size
otherwise (conditional compilation in the header). -/
def CACHE_SIZE (c : Config) : ℤ :=
  if c.appcpuEnabled then CACHE_SIZE_SINGLE_CPU else CACHE_SIZE_DUAL_CPU

/-- SRAM0: Critical IRAM for the 2nd stage bootloader (defined under
CONFIG_MCUBOOT). -/
def BOOTLOADER_IRAM_LOADER_START (c : Config) : ℤ :=
  c.sram0_start + CACHE_SIZE_SINGLE_CPU

def BOOTLOADER_IRAM_LOADER_SIZE (c : Config) : ℤ := c.mcubootIram

/-- BOOTLOADER_IRAM_RESERVED: CACHE_SIZE_SINGLE_CPU + BOOTLOADER_IRAM_LOADER_SIZE
under CONFIG_MCUBOOT, 0 in the #else branch. -/
def BOOTLOADER_IRAM_RESERVED (c : Config) : ℤ :=
  if c.mcuboot then CACHE_SIZE_SINGLE_CPU + c.mcubootIram else 0

/-- SRAM0: Reclaimable IRAM for the 2nd stage bootloader (remainder of SRAM0). -/
def BOOTLOADER_IRAM_START (c : Config) : ℤ :=
  BOOTLOADER_IRAM_LOADER_START c + BOOTLOADER_IRAM_LOADER_SIZE c

def BOOTLOADER_IRAM_SIZE (c : Config) : ℤ :=
  c.sram0_size - BOOTLOADER_IRAM_RESERVED c

def BOOTLOADER_DRAM_START : ℤ := 0x3ffe8000

def BOOTLOADER_DRAM_SIZE : ℤ := 0x18000

/-- Sections at the start of SRAM1 reserved for ROM functions and shared
memory, in total 32kB. -/
def SRAM1_RESERVED : ℤ := 0x8000

def SRAM1_DRAM_SIZE (c : Config) : ℤ := c.sram1HeapSize

def SRAM1_IRAM_SIZE (c : Config) : ℤ :=
  c.sram1_size - SRAM1_RESERVED - c.sram1HeapSize

/-- IRAM_RESERVED: the larger of CACHE_SIZE and BOOTLOADER_IRAM_RESERVED
(conditional expression in the header). -/
def IRAM_RESERVED (c : Config) : ℤ :=
  if CACHE_SIZE c > BOOTLOADER_IRAM_RESERVED c then CACHE_SIZE c
  else BOOTLOADER_IRAM_RESERVED c

/-- SRAM0 + SRAM1: Instruction Memory. -/
def IRAM_START (c : Config) : ℤ := c.sram0_start + IRAM_RESERVED c

def IRAM_SIZE (c : Config) : ℤ :=
  c.sram0_size - IRAM_RESERVED c + SRAM1_IRAM_SIZE c

/-- SRAM2: Reserved ROM + Bluetooth data memory. -/
def DRAM_RESERVED (c : Config) : ℤ := 0x2000 + c.btReserveDram

/-- SRAM2: Data Memory. -/
def DRAM_START (c : Config) : ℤ := c.sram2_start + DRAM_RESERVED c

def DRAM_SIZE (c : Config) : ℤ := c.sram2_size - DRAM_RESERVED c

/-- SRAM1: ESP Heap Memory. -/
def HEAP_START (c : Config) : ℤ := c.sram1_start + SRAM1_RESERVED

def HEAP_SIZE (c : Config) : ℤ := SRAM1_DRAM_SIZE c

/-- Secondary / App CPU sizes: the Kconfig values when the App CPU is enabled,
0 in the #else branch. -/
def APPCPU_IRAM_SIZE (c : Config) : ℤ :=
  if c.appcpuEnabled then c.appcpuIramSizeCfg else 0

def APPCPU_DRAM_SIZE (c : Config) : ℤ :=
  if c.appcpuEnabled then c.appcpuDramSizeCfg else 0

def APPCPU_IRAM_START (c : Config) : ℤ :=
  IRAM_START c + IRAM_SIZE c - APPCPU_IRAM_SIZE c

def APPCPU_DRAM_START (c : Config) : ℤ :=
  DRAM_START c + DRAM_SIZE c - APPCPU_DRAM_SIZE c

/-- Primary / Pro CPU. -/
def PROCPU_IRAM_START (c : Config) : ℤ := IRAM_START c

def PROCPU_IRAM_SIZE (c : Config) : ℤ := IRAM_SIZE c - APPCPU_IRAM_SIZE c

def PROCPU_DRAM_START (c : Config) : ℤ := DRAM_START c

def PROCPU_DRAM_SIZE (c : Config) : ℤ := DRAM_SIZE c - APPCPU_DRAM_SIZE c

/-- FLASH_SIZE: CONFIG_FLASH_SIZE when defined, 0x400000 otherwise. -/
def FLASH_SIZE (c : Config) : ℤ :=
  match c.flashSizeCfg with
  | some s => s
  | none => 0x400000

/-- Size of the FLASH code partition, read from the device tree. -/
def FLASH_CODE_START (c : Config) : ℤ := c.flashCodeStart

def FLASH_CODE_SIZE (c : Config) : ℤ := c.flashCodeSize

/-- Cached memories. -/
def CACHE_ALIGN (c : Config) : ℤ := c.mmuPageSize

def IROM_SEG_ORG : ℤ := 0x400d0000

def IROM_SEG_LEN (c : Config) : ℤ := FLASH_SIZE c - 0x1000

def DROM_SEG_ORG : ℤ := 0x3f400000

def DROM_SEG_LEN (c : Config) : ℤ := FLASH_SIZE c - 0x1000

/-- Start address of SRAM1 on the instruction memory bus: SRAM1 sits right
after SRAM0 there. -/
def SRAM1_IRAM_START (c : Config) : ℤ := c.sram0_start + c.sram0_size

/-- Start address of SRAM1 on the data memory bus, straight from the device
tree. -/
def SRAM1_DRAM_START (c : Config) : ℤ := c.sram1_start

/-- Convert an IRAM address to its DRAM counterpart in SRAM1 memory. -/
def SRAM1_IRAM_DRAM_CALC (c : Config) (addr_iram : ℤ) : ℤ :=
  c.sram1_size - (addr_iram - SRAM1_IRAM_START c) + SRAM1_DRAM_START c

/-- Convert a DRAM address to its IRAM counterpart in SRAM1 memory. -/
def SRAM1_DRAM_IRAM_CALC (c : Config) (addr_dram : ℤ) : ℤ :=
  c.sram1_size - (addr_dram - SRAM1_DRAM_START c) + SRAM1_IRAM_START c

/-- Disjointness of the half-open address intervals [a, a+s) and [b, b+t). -/
def disjointI (a s b t : ℤ) : Prop := a + s ≤ b ∨ b + t ≤ a

instance (a s b t : ℤ) : Decidable (disjointI a s b t) := by
  unfold disjointI; infer_instance

/-- Replace only the secondary-core size options of a configuration, leaving
every other input unchanged. -/
def withSecondarySizes (c : Config) (i d : ℤ) : Config :=
  { c with appcpuIramSizeCfg := i, appcpuDramSizeCfg := d }

/-- A baseline configuration with the real ESP32 bank geometry: SRAM0 of
192kB at 0x40070000 (instruction bus), SRAM1 of 128kB at 0x3FFE0000 (data
bus), SRAM2 of 200kB at 0x3FFAE000; no App CPU, no MCUboot. -/
def baseCfg : Config where
  sram0_start := 0x40070000
  sram0_size := 0x30000
  sram1_start := 0x3FFE0000
  sram1_size := 0x20000
  sram2_start := 0x3FFAE000
  sram2_size := 0x32000
  appcpuEnabled := false
  mcuboot := false
  mcubootIram := 0
  sram1HeapSize := 0x4000
  btReserveDram := 0
  appcpuIramSizeCfg := 0x8000
  appcpuDramSizeCfg := 0x8000
  flashSizeCfg := none
  flashCodeStart := 0x10000
  flashCodeSize := 0x100000
  mmuPageSize := 0x10000

/-- Baseline plus MCUboot with a 16kB loader segment, App CPU disabled. -/
def mcubootCfg : Config := { baseCfg with mcuboot := true, mcubootIram := 0x4000 }

/-- Baseline plus MCUboot with a 16kB loader segment, App CPU enabled. -/
def mcubootAppcpuCfg : Config :=
  { baseCfg with mcuboot := true, mcubootIram := 0x4000, appcpuEnabled := true }

/-- Baseline plus MCUboot with a loader segment larger than what remains of
SRAM0 above the single-CPU cache. -/
def oversizeLoaderCfg : Config :=
  { baseCfg with mcuboot := true, mcubootIram := 0x29000 }

/-- Baseline with a heap reservation larger than SRAM1 minus its reserved
head. -/
def oversizeHeapCfg : Config := { baseCfg with sram1HeapSize := 0x19000 }

/-- C1: the two SRAM1 bus translators are exact inverses of one another on
the Bank1 address ranges: SRAM1_DRAM_IRAM_CALC after SRAM1_IRAM_DRAM_CALC is
the identity on the instruction-bus view [I0, I0+S), and symmetrically on
the data-bus view [D0, D0+S). -/
theorem sram1_calc_inverse (c : Config) (x y : ℤ)
    (hx1 : SRAM1_IRAM_START c ≤ x) (hx2 : x < SRAM1_IRAM_START c + c.sram1_size)
    (hy1 : SRAM1_DRAM_START c ≤ y) (hy2 : y < SRAM1_DRAM_START c + c.sram1_size) :
    SRAM1_DRAM_IRAM_CALC c (SRAM1_IRAM_DRAM_CALC c x) = x ∧
    SRAM1_IRAM_DRAM_CALC c (SRAM1_DRAM_IRAM_CALC c y) = y := by
  unfold SRAM1_DRAM_IRAM_CALC SRAM1_IRAM_DRAM_CALC
  constructor <;> ring

/-- C1 witness: the inverse law evaluated on the baseline bank geometry, at
the first instruction-bus address of SRAM1 and the first data-bus address of
SRAM1. -/
theorem sram1_calc_inverse_witness :
    SRAM1_DRAM_IRAM_CALC baseCfg (SRAM1_IRAM_DRAM_CALC baseCfg 0x400A0000) = 0x400A0000 ∧
    SRAM1_IRAM_DRAM_CALC baseCfg (SRAM1_DRAM_IRAM_CALC baseCfg 0x3FFE0000) = 0x3FFE0000 :=
  sram1_calc_inverse baseCfg 0x400A0000 0x3FFE0000
    (by decide) (by decide) (by decide) (by decide)

/-- C5: the instruction-to-data translator maps the Bank1 boundaries exactly:
the inclusive lower bound I0 = SRAM0_START + SRAM0_SIZE of the instruction-bus
view maps to D0 + S, the exclusive upper bound I0 + S maps to D0, where
D0 = SRAM1_START and S = SRAM1_SIZE. -/
theorem sram1_boundary_map (c : Config) :
    SRAM1_IRAM_START c = c.sram0_start + c.sram0_size ∧
    SRAM1_IRAM_DRAM_CALC c (SRAM1_IRAM_START c) = c.sram1_start + c.sram1_size ∧
    SRAM1_IRAM_DRAM_CALC c (SRAM1_IRAM_START c + c.sram1_size) = c.sram1_start := by
  unfold SRAM1_IRAM_DRAM_CALC SRAM1_IRAM_START SRAM1_DRAM_START
  refine ⟨rfl, by ring, by ring⟩

/-- C4: the cache region starts at the base of Bank0 and its size depends
only on the secondary-core toggle: single-CPU size 0x8000 with the App CPU
enabled, twice that (0x10000) with it disabled; the dual-CPU constant is
exactly twice the single-CPU constant. -/
theorem cache_region_spec (c : Config) :
    CACHE_START c = c.sram0_start ∧
    CACHE_SIZE_DUAL_CPU = 2 * CACHE_SIZE_SINGLE_CPU ∧
    (c.appcpuEnabled = false →
      CACHE_SIZE c = 2 * CACHE_SIZE_SINGLE_CPU ∧ CACHE_SIZE c = 0x10000) ∧
    (c.appcpuEnabled = true →
      CACHE_SIZE c = CACHE_SIZE_SINGLE_CPU ∧ CACHE_SIZE c = 0x8000) := by
  refine ⟨rfl, by decide, ?_, ?_⟩ <;> intro h <;>
    simp [CACHE_SIZE, h, CACHE_SIZE_SINGLE_CPU, CACHE_SIZE_DUAL_CPU]

/-- C4 witness: the cache-region facts evaluated on the baseline
configuration (App CPU disabled). -/
theorem cache_region_spec_witness :
    CACHE_START baseCfg = baseCfg.sram0_start ∧
    CACHE_SIZE_DUAL_CPU = 2 * CACHE_SIZE_SINGLE_CPU ∧
    (baseCfg.appcpuEnabled = false →
      CACHE_SIZE baseCfg = 2 * CACHE_SIZE_SINGLE_CPU ∧ CACHE_SIZE baseCfg = 0x10000) ∧
    (baseCfg.appcpuEnabled = true →
      CACHE_SIZE baseCfg = CACHE_SIZE_SINGLE_CPU ∧ CACHE_SIZE baseCfg = 0x8000) :=
  cache_region_spec baseCfg

/-- C3: the reservation at the head of Bank0 is the maximum of CACHE_SIZE and
BOOTLOADER_IRAM_RESERVED, where the latter is the single-CPU cache size plus
the loader IRAM size when MCUboot is present and 0 otherwise, and IRAM starts
right after that maximum; in particular, with the loader present, a 16kB
loader segment and the App CPU disabled, the head reservation is
max(0x10000, 0xC000) = 0x10000. -/
theorem iram_reserved_spec (c : Config) :
    IRAM_RESERVED c = max (CACHE_SIZE c) (BOOTLOADER_IRAM_RESERVED c) ∧
    IRAM_START c = c.sram0_start + max (CACHE_SIZE c) (BOOTLOADER_IRAM_RESERVED c) ∧
    (c.mcuboot = true →
      BOOTLOADER_IRAM_RESERVED c = CACHE_SIZE_SINGLE_CPU + c.mcubootIram) ∧
    (c.mcuboot = false → BOOTLOADER_IRAM_RESERVED c = 0) ∧
    (c.mcuboot = true → c.mcubootIram = 0x4000 → c.appcpuEnabled = false →
      IRAM_RESERVED c = 0x10000 ∧ IRAM_RESERVED c = max 0x10000 0xC000) := by
  have hmax : IRAM_RESERVED c = max (CACHE_SIZE c) (BOOTLOADER_IRAM_RESERVED c) := by
    unfold IRAM_RESERVED
    rcases le_or_lt (CACHE_SIZE c) (BOOTLOADER_IRAM_RESERVED c) with h | h
    · rw [if_neg (not_lt.mpr h), max_eq_right h]
    · rw [if_pos h, max_eq_left h.le]
  refine ⟨hmax, by rw [IRAM_START, hmax], ?_, ?_, ?_⟩
  · intro h; simp [BOOTLOADER_IRAM_RESERVED, h]
  · intro h; simp [BOOTLOADER_IRAM_RESERVED, h]
  · intro h1 h2 h3
    rw [hmax]
    simp [BOOTLOADER_IRAM_RESERVED, CACHE_SIZE, h1, h2, h3,
      CACHE_SIZE_SINGLE_CPU, CACHE_SIZE_DUAL_CPU]

/-- C3 witness: the head-of-Bank0 reservation facts evaluated on the MCUboot
configuration with a 16kB loader segment and the App CPU disabled. -/
theorem iram_reserved_spec_witness :
    IRAM_RESERVED mcubootCfg = 0x10000 ∧
    IRAM_START mcubootCfg = 0x40080000 :=
  ⟨((iram_reserved_spec mcubootCfg).2.2.2.2 rfl rfl rfl).1, by decide⟩

/-- C8: the primary-core base addresses do not depend on the secondary-core
size options: replacing only those two configuration fields leaves
PROCPU_IRAM_START and PROCPU_DRAM_START unchanged, while the secondary-core
regions are carved from the tail of each pool. -/
theorem procpu_base_invariant (c : Config) (i d : ℤ) :
    PROCPU_IRAM_START (withSecondarySizes c i d) = PROCPU_IRAM_START c ∧
    PROCPU_DRAM_START (withSecondarySizes c i d) = PROCPU_DRAM_START c ∧
    APPCPU_IRAM_START c = IRAM_START c + IRAM_SIZE c - APPCPU_IRAM_SIZE c ∧
    APPCPU_DRAM_START c = DRAM_START c + DRAM_SIZE c - APPCPU_DRAM_SIZE c :=
  ⟨rfl, rfl, rfl, rfl⟩

/-- C10: the per-core split tiles each combined pool exactly: the primary and
secondary sizes add up to the pool size, the secondary region starts exactly
where the primary one ends (so with non-negative sizes the two are disjoint),
and with the App CPU disabled the secondary sizes are 0 and the primary
regions are the full pools. -/
theorem cpu_split_tiles (c : Config) :
    PROCPU_IRAM_SIZE c + APPCPU_IRAM_SIZE c = IRAM_SIZE c ∧
    APPCPU_IRAM_START c = PROCPU_IRAM_START c + PROCPU_IRAM_SIZE c ∧
    PROCPU_DRAM_SIZE c + APPCPU_DRAM_SIZE c = DRAM_SIZE c ∧
    APPCPU_DRAM_START c = PROCPU_DRAM_START c + PROCPU_DRAM_SIZE c ∧
    (0 ≤ PROCPU_IRAM_SIZE c → 0 ≤ APPCPU_IRAM_SIZE c →
      disjointI (PROCPU_IRAM_START c) (PROCPU_IRAM_SIZE c)
        (APPCPU_IRAM_START c) (APPCPU_IRAM_SIZE c)) ∧
    (0 ≤ PROCPU_DRAM_SIZE c → 0 ≤ APPCPU_DRAM_SIZE c →
      disjointI (PROCPU_DRAM_START c) (PROCPU_DRAM_SIZE c)
        (APPCPU_DRAM_START c) (APPCPU_DRAM_SIZE c)) ∧
    (c.appcpuEnabled = false →
      APPCPU_IRAM_SIZE c = 0 ∧ APPCPU_DRAM_SIZE c = 0 ∧
      PROCPU_IRAM_SIZE c = IRAM_SIZE c ∧ PROCPU_DRAM_SIZE c = DRAM_SIZE c) := by
  refine ⟨by unfold PROCPU_IRAM_SIZE; ring, by unfold APPCPU_IRAM_START PROCPU_IRAM_START PROCPU_IRAM_SIZE; ring,
    by unfold PROCPU_DRAM_SIZE; ring, by unfold APPCPU_DRAM_START PROCPU_DRAM_START PROCPU_DRAM_SIZE; ring,
    ?_, ?_, ?_⟩
  · intro h1 h2
    left
    unfold APPCPU_IRAM_START PROCPU_IRAM_START PROCPU_IRAM_SIZE
    omega
  · intro h1 h2
    left
    unfold APPCPU_DRAM_START PROCPU_DRAM_START PROCPU_DRAM_SIZE
    omega
  · intro h
    unfold PROCPU_IRAM_SIZE PROCPU_DRAM_SIZE APPCPU_IRAM_SIZE APPCPU_DRAM_SIZE
    simp [h]

/-- C10 witness: the tiling facts evaluated on the baseline configuration. -/
theorem cpu_split_tiles_witness :
    PROCPU_IRAM_SIZE baseCfg + APPCPU_IRAM_SIZE baseCfg = IRAM_SIZE baseCfg ∧
    disjointI (PROCPU_IRAM_START baseCfg) (PROCPU_IRAM_SIZE baseCfg)
      (APPCPU_IRAM_START baseCfg) (APPCPU_IRAM_SIZE baseCfg) ∧
    APPCPU_IRAM_SIZE baseCfg = 0 :=
  ⟨(cpu_split_tiles baseCfg).1,
   (cpu_split_tiles baseCfg).2.2.2.2.1 (by decide) (by decide),
   ((cpu_split_tiles baseCfg).2.2.2.2.2.2 rfl).1⟩

/-- C2 counterexample: with MCUboot present, a 16kB loader segment and the
App CPU disabled, the cache region [SRAM0_START, SRAM0_START + 0x10000) and
the loader critical region [SRAM0_START + 0x8000, SRAM0_START + 0xC000)
overlap on the instruction bus, so the four emitted instruction-bus regions
are not pairwise disjoint. -/
theorem iram_regions_not_pairwise_disjoint :
    ¬ (disjointI (CACHE_START mcubootCfg) (CACHE_SIZE mcubootCfg)
         (BOOTLOADER_IRAM_LOADER_START mcubootCfg)
         (BOOTLOADER_IRAM_LOADER_SIZE mcubootCfg) ∧
       disjointI (CACHE_START mcubootCfg) (CACHE_SIZE mcubootCfg)
         (BOOTLOADER_IRAM_START mcubootCfg) (BOOTLOADER_IRAM_SIZE mcubootCfg) ∧
       disjointI (CACHE_START mcubootCfg) (CACHE_SIZE mcubootCfg)
         (IRAM_START mcubootCfg) (IRAM_SIZE mcubootCfg) ∧
       disjointI (BOOTLOADER_IRAM_LOADER_START mcubootCfg)
         (BOOTLOADER_IRAM_LOADER_SIZE mcubootCfg)
         (BOOTLOADER_IRAM_START mcubootCfg) (BOOTLOADER_IRAM_SIZE mcubootCfg) ∧
       disjointI (BOOTLOADER_IRAM_LOADER_START mcubootCfg)
         (BOOTLOADER_IRAM_LOADER_SIZE mcubootCfg)
         (IRAM_START mcubootCfg) (IRAM_SIZE mcubootCfg) ∧
       disjointI (BOOTLOADER_IRAM_START mcubootCfg) (BOOTLOADER_IRAM_SIZE mcubootCfg)
         (IRAM_START mcubootCfg) (IRAM_SIZE mcubootCfg)) := by
  intro h
  exact absurd h.1 (by decide)

/-- C2 amended: on the instruction bus the application IRAM region is
disjoint from the cache region and from the loader critical region, and the
loader critical region is disjoint from the loader reclaimable region; when
the App CPU is enabled (cache region = single-CPU size) the cache region is
additionally disjoint from both loader regions.  With the App CPU disabled
the loader regions deliberately lie inside the dual-CPU cache envelope, so
full pairwise disjointness does not hold. -/
theorem iram_regions_disjoint (c : Config)
    (hm : c.mcuboot = true) (hL : 0 ≤ c.mcubootIram) :
    disjointI (CACHE_START c) (CACHE_SIZE c) (IRAM_START c) (IRAM_SIZE c) ∧
    disjointI (BOOTLOADER_IRAM_LOADER_START c) (BOOTLOADER_IRAM_LOADER_SIZE c)
      (IRAM_START c) (IRAM_SIZE c) ∧
    disjointI (BOOTLOADER_IRAM_LOADER_START c) (BOOTLOADER_IRAM_LOADER_SIZE c)
      (BOOTLOADER_IRAM_START c) (BOOTLOADER_IRAM_SIZE c) ∧
    (c.appcpuEnabled = true →
      disjointI (CACHE_START c) (CACHE_SIZE c)
        (BOOTLOADER_IRAM_LOADER_START c) (BOOTLOADER_IRAM_LOADER_SIZE c) ∧
      disjointI (CACHE_START c) (CACHE_SIZE c)
        (BOOTLOADER_IRAM_START c) (BOOTLOADER_IRAM_SIZE c)) := by
  have hb : BOOTLOADER_IRAM_RESERVED c = 0x8000 + c.mcubootIram := by
    unfold BOOTLOADER_IRAM_RESERVED CACHE_SIZE_SINGLE_CPU
    rw [hm]
    simp
  have h1 : BOOTLOADER_IRAM_RESERVED c ≤ IRAM_RESERVED c := by
    unfold IRAM_RESERVED
    split_ifs with h
    · exact le_of_lt h
    · exact le_refl _
  have h2 : CACHE_SIZE c ≤ IRAM_RESERVED c := by
    unfold IRAM_RESERVED
    split_ifs with h
    · exact le_refl _
    · exact not_lt.mp h
  unfold disjointI CACHE_START BOOTLOADER_IRAM_START BOOTLOADER_IRAM_SIZE
    BOOTLOADER_IRAM_LOADER_START BOOTLOADER_IRAM_LOADER_SIZE
    IRAM_START CACHE_SIZE_SINGLE_CPU
  refine ⟨by left; omega, by left; omega, by left; omega, ?_⟩
  intro ha
  have hc : CACHE_SIZE c = 0x8000 := by
    unfold CACHE_SIZE CACHE_SIZE_SINGLE_CPU
    rw [ha]
    simp
  exact ⟨by left; omega, by left; omega⟩

/-- C2 witness: the amended disjointness facts evaluated on the MCUboot
configuration with the App CPU enabled. -/
theorem iram_regions_disjoint_witness :
    disjointI (CACHE_START mcubootAppcpuCfg) (CACHE_SIZE mcubootAppcpuCfg)
      (IRAM_START mcubootAppcpuCfg) (IRAM_SIZE mcubootAppcpuCfg) ∧
    disjointI (BOOTLOADER_IRAM_LOADER_START mcubootAppcpuCfg)
      (BOOTLOADER_IRAM_LOADER_SIZE mcubootAppcpuCfg)
      (IRAM_START mcubootAppcpuCfg) (IRAM_SIZE mcubootAppcpuCfg) ∧
    disjointI (BOOTLOADER_IRAM_LOADER_START mcubootAppcpuCfg)
      (BOOTLOADER_IRAM_LOADER_SIZE mcubootAppcpuCfg)
      (BOOTLOADER_IRAM_START mcubootAppcpuCfg)
      (BOOTLOADER_IRAM_SIZE mcubootAppcpuCfg) ∧
    (mcubootAppcpuCfg.appcpuEnabled = true →
      disjointI (CACHE_START mcubootAppcpuCfg) (CACHE_SIZE mcubootAppcpuCfg)
        (BOOTLOADER_IRAM_LOADER_START mcubootAppcpuCfg)
        (BOOTLOADER_IRAM_LOADER_SIZE mcubootAppcpuCfg) ∧
      disjointI (CACHE_START mcubootAppcpuCfg) (CACHE_SIZE mcubootAppcpuCfg)
        (BOOTLOADER_IRAM_START mcubootAppcpuCfg)
        (BOOTLOADER_IRAM_SIZE mcubootAppcpuCfg)) :=
  iram_regions_disjoint mcubootAppcpuCfg rfl (by decide)

/-- C6 counterexample: with MCUboot present and a loader segment of 0x29000
bytes (more than SRAM0_SIZE - single-CPU cache = 0x28000), the header still
emits every region value, including a negative-sized reclaimable region
BOOTLOADER_IRAM_SIZE = -0x1000: there is no fatal error and a (corrupt)
layout is produced. -/
theorem bootloader_overflow_emits_value :
    oversizeLoaderCfg.mcubootIram ≥
      oversizeLoaderCfg.sram0_size - CACHE_SIZE_SINGLE_CPU ∧
    BOOTLOADER_IRAM_SIZE oversizeLoaderCfg = -0x1000 ∧
    BOOTLOADER_IRAM_SIZE oversizeLoaderCfg < 0 := by
  refine ⟨by decide, by decide, by decide⟩

/-- C6 amended: the header performs no validation; whenever MCUboot is
present and the loader IRAM size is at least SRAM0_SIZE minus the single-CPU
cache size, the emitted BOOTLOADER_IRAM_SIZE is non-positive (strictly
negative when the bound is strict), and it always equals
SRAM0_SIZE - single-CPU cache - loader size. -/
theorem bootloader_overflow_yields_nonpos (c : Config)
    (hm : c.mcuboot = true)
    (h : c.sram0_size - CACHE_SIZE_SINGLE_CPU ≤ c.mcubootIram) :
    BOOTLOADER_IRAM_SIZE c =
      c.sram0_size - CACHE_SIZE_SINGLE_CPU - c.mcubootIram ∧
    BOOTLOADER_IRAM_SIZE c ≤ 0 ∧
    (c.sram0_size - CACHE_SIZE_SINGLE_CPU < c.mcubootIram →
      BOOTLOADER_IRAM_SIZE c < 0) := by
  unfold BOOTLOADER_IRAM_SIZE BOOTLOADER_IRAM_RESERVED
  rw [hm]
  simp only [if_pos]
  refine ⟨by ring, by omega, fun hlt => by omega⟩

/-- C6 witness: the amended overflow behaviour evaluated on the oversized
loader configuration. -/
theorem bootloader_overflow_yields_nonpos_witness :
    BOOTLOADER_IRAM_SIZE oversizeLoaderCfg ≤ 0 :=
  (bootloader_overflow_yields_nonpos oversizeLoaderCfg rfl (by decide)).2.1

/-- C7 counterexample: with a heap reservation of 0x19000 bytes (so that
heap + 32kB head = 0x21000 exceeds SRAM1_SIZE = 0x20000), the header still
emits SRAM1_IRAM_SIZE = -0x1000: a negative Bank1 IRAM extension is produced
instead of any configuration error. -/
theorem sram1_overflow_emits_value :
    oversizeHeapCfg.sram1HeapSize + SRAM1_RESERVED > oversizeHeapCfg.sram1_size ∧
    SRAM1_IRAM_SIZE oversizeHeapCfg = -0x1000 ∧
    SRAM1_IRAM_SIZE oversizeHeapCfg < 0 := by
  refine ⟨by decide, by decide, by decide⟩

/-- C7 amended: the header performs no validation; whenever the heap
reservation plus the fixed 32kB head exceeds SRAM1_SIZE, the emitted
SRAM1_IRAM_SIZE is strictly negative, and it always equals
SRAM1_SIZE - 32kB - heap reservation. -/
theorem sram1_overflow_yields_neg (c : Config)
    (h : c.sram1HeapSize + SRAM1_RESERVED > c.sram1_size) :
    SRAM1_IRAM_SIZE c = c.sram1_size - SRAM1_RESERVED - c.sram1HeapSize ∧
    SRAM1_IRAM_SIZE c < 0 := by
  unfold SRAM1_IRAM_SIZE SRAM1_RESERVED at *
  exact ⟨rfl, by omega⟩

/-- C7 witness: the amended overflow behaviour evaluated on the oversized
heap configuration. -/
theorem sram1_overflow_yields_neg_witness :
    SRAM1_IRAM_SIZE oversizeHeapCfg < 0 :=
  (sram1_overflow_yields_neg oversizeHeapCfg (by decide)).2

/-- C9 counterexample: the flash code partition size is passed through from
the device tree unchanged; on the baseline configuration it is 0x100000, not
0x100000 - 0x1000, so the flash regions do not all have size equal to their
input size minus the 4kB trailer. -/
theorem flash_code_size_not_reduced :
    FLASH_CODE_SIZE baseCfg = baseCfg.flashCodeSize ∧
    FLASH_CODE_SIZE baseCfg ≠ baseCfg.flashCodeSize - 0x1000 := by
  refine ⟨rfl, by decide⟩

/-- C9 amended: the flash code partition base and size are passed through
from the device tree with no adjustment at all; the 4kB trailer exclusion
applies to the cache-backed segment lengths IROM_SEG_LEN and DROM_SEG_LEN,
which equal FLASH_SIZE - 0x1000, where FLASH_SIZE is the configured value
when present and 0x400000 otherwise; the alignment constant for the cached
views is the configured MMU page size. -/
theorem flash_regions_spec (c : Config) :
    FLASH_CODE_START c = c.flashCodeStart ∧
    FLASH_CODE_SIZE c = c.flashCodeSize ∧
    IROM_SEG_LEN c = FLASH_SIZE c - 0x1000 ∧
    DROM_SEG_LEN c = FLASH_SIZE c - 0x1000 ∧
    (c.flashSizeCfg = none → FLASH_SIZE c = 0x400000) ∧
    (∀ s : ℤ, c.flashSizeCfg = some s → FLASH_SIZE c = s) ∧
    CACHE_ALIGN c = c.mmuPageSize := by
  refine ⟨rfl, rfl, rfl, rfl, ?_, ?_, rfl⟩
  · intro h; unfold FLASH_SIZE; rw [h]
  · intro s h; unfold FLASH_SIZE; rw [h]

/-- C9 witness: the amended flash-region facts evaluated on the baseline
configuration, whose flash size macro is left undefined. -/
theorem flash_regions_spec_witness :
    FLASH_CODE_SIZE baseCfg = baseCfg.flashCodeSize ∧
    IROM_SEG_LEN baseCfg = FLASH_SIZE baseCfg - 0x1000 ∧
    FLASH_SIZE baseCfg = 0x400000 :=
  ⟨(flash_regions_spec baseCfg).2.1, (flash_regions_spec baseCfg).2.2.1,
   (flash_regions_spec baseCfg).2.2.2.2.1 rfl⟩
